import Mathlib

/-!
Verification of the typed JSON loader of `nanolib`
(`src/packages/node-fs/src/read-json.ts`).

The loader is a single function

  export function readJson<T extends Dictionary>(path: string, sync = false): MaybePromise<T> {
    logger.logMethodArgs?.('readJson', \x7bpath: path.slice(-32), sync\x7d);
    if (sync === true) {
      return parseJson<T>(readFileSync(path));
    }
    else {
      return readFile(path).then((content) => parseJson<T>(content));
    }
  }

delegating to three external collaborators: a read primitive
(`readFileSync` / `readFile`, the latter returning a promise), a JSON-parse
primitive (`parseJson`) and an optional logging hook
(`logger.logMethodArgs?.`).  The collaborators live outside the sources of
this repository, so they are kept abstract here: an `Env` record carries
them, and theorems quantify over every environment.

A promise is modelled by its settled result (`Except`): a rejected promise
is an `Except.error`, a resolved one an `Except.ok`.  A blocking call that
throws is likewise an `Except.error` delivered immediately.  To reason about
the observable interaction with the collaborators (which primitive is called,
with which argument, in which order) the embedding also returns a trace of
events.
-/

namespace NanoLib

/-- JavaScript `String.prototype.slice` called with a (possibly negative)
start index and no end index: the suffix of `s` starting at
`max (s.length + start) 0` when `start < 0`, at `min start s.length`
otherwise.  The source uses `path.slice(-32)`. -/
def jsSliceFrom (s : String) (start : Int) : String :=
  if start < 0 then s.drop (max (s.length + start) 0).toNat
  else s.drop (min start.toNat s.length)

/-- Errors signalled by the collaborators.  The read primitive signals read
failures (file not found, permission denied, ...), the JSON-parse primitive
signals parse failures (syntax errors).  The payload string stands for the
underlying error object, carried verbatim. -/
inductive JsError where
  | readErr (msg : String)
  | parseErr (msg : String)
deriving DecidableEq

/-- Does this error have the read-failure kind? -/
def JsError.isReadKind : JsError → Bool
  | .readErr _ => true
  | .parseErr _ => false

/-- Does this error have the parse-failure kind? -/
def JsError.isParseKind : JsError → Bool
  | .readErr _ => false
  | .parseErr _ => true

/-- Observable events of one `readJson` call: the logging-hook invocation
(with the exact arguments the source passes) and the calls to the three
collaborator primitives (with the argument each receives). -/
inductive Event where
  | logCall (method : String) (loggedPath : String) (sync : Bool)
  | readSyncCall (path : String)
  | readAsyncCall (path : String)
  | parseCall (text : String)
deriving DecidableEq

/-- Is this event an invocation of the logging hook? -/
def Event.isLog : Event → Bool
  | .logCall _ _ _ => true
  | _ => false

/-- Is this event an invocation of one of the two read primitives? -/
def Event.isReadCall : Event → Bool
  | .readSyncCall _ => true
  | .readAsyncCall _ => true
  | _ => false

/-- Is this event an invocation of the JSON-parse primitive? -/
def Event.isParseCall : Event → Bool
  | .parseCall _ => true
  | _ => false

/-- How the outcome of a call is delivered: `immediate` is the blocking
mode (the value is returned, or the error raised, at the call site);
`deferred` is the non-blocking mode (a promise that resolves to the value
or rejects with the error). -/
inductive Outcome (ε α : Type) where
  | immediate (r : Except ε α)
  | deferred (r : Except ε α)

/-- The settled result carried by an outcome, forgetting the delivery
mechanism. -/
def Outcome.settled : Outcome ε α → Except ε α
  | .immediate r => r
  | .deferred r => r

/-- Is the outcome delivered immediately (blocking mode)? -/
def Outcome.isImmediate : Outcome ε α → Bool
  | .immediate _ => true
  | .deferred _ => false

/-- The full observable behaviour of one call: the ordered trace of
collaborator invocations and the delivered outcome. -/
structure CallResult (ε α : Type) where
  trace : List Event
  outcome : Outcome ε α

/-- The external collaborators `readJson` delegates to, kept abstract
(they are imported from modules outside this repository's sources).
`readFileSync` is the blocking read (text or raised error), `readFile` the
non-blocking read modelled by its settled promise, `parseJson` the
synchronous JSON-parse primitive, and `hasLogger` records whether the
optional `logger.logMethodArgs` hook is set. -/
structure Env (T : Type) where
  readFileSync : String → Except JsError String
  readFile : String → Except JsError String
  parseJson : String → Except JsError T
  hasLogger : Bool

/-- Shallow embedding of `readJson` from
`src/packages/node-fs/src/read-json.ts`.

Line by line: the optional-chaining call
`logger.logMethodArgs?.('readJson', \x7bpath: path.slice(-32), sync\x7d)`
emits one log event when the hook is set and nothing otherwise; then
`if (sync === true)` dispatches.  The blocking branch returns
`parseJson(readFileSync(path))`: a raised read error propagates (parse is
not reached), otherwise the parse result (value or raised parse error) is
delivered at the call site.  The non-blocking branch returns
`readFile(path).then((content) => parseJson(content))`: a rejected read
promise propagates (parse is not reached), otherwise the promise settles
with the parse result. -/
def readJson (env : Env T) (path : String) (sync : Bool) : CallResult JsError T :=
  let logTrace : List Event :=
    if env.hasLogger then [Event.logCall "readJson" (jsSliceFrom path (-32)) sync] else []
  if sync = true then
    match env.readFileSync path with
    | .error e =>
        { trace := logTrace ++ [Event.readSyncCall path]
          outcome := .immediate (.error e) }
    | .ok content =>
        { trace := logTrace ++ [Event.readSyncCall path, Event.parseCall content]
          outcome := .immediate (env.parseJson content) }
  else
    match env.readFile path with
    | .error e =>
        { trace := logTrace ++ [Event.readAsyncCall path]
          outcome := .deferred (.error e) }
    | .ok content =>
        { trace := logTrace ++ [Event.readAsyncCall path, Event.parseCall content]
          outcome := .deferred (env.parseJson content) }

/-- The one-argument form `readJson(path)`: the source declares the mode
parameter with the default `sync = false`, so omitting it runs the
non-blocking branch. -/
def readJsonDefault (env : Env T) (path : String) : CallResult JsError T :=
  readJson env path false

/-! ### Properties of the path truncation `path.slice(-32)` -/

/-- `slice(-32)` is dropping all but the last 32 characters. -/
theorem jsSliceFrom_neg32_eq (s : String) :
    jsSliceFrom s (-32) = s.drop (s.length - 32) := by
  unfold jsSliceFrom
  rw [if_pos (by norm_num)]
  congr 1
  omega

/-- The truncated path is a suffix of the original path. -/
theorem jsSliceFrom_neg32_suffix (s : String) :
    (jsSliceFrom s (-32)).data <:+ s.data := by
  rw [jsSliceFrom_neg32_eq, String.data_drop]
  exact List.drop_suffix _ _

/-- The truncated path has at most 32 characters. -/
theorem jsSliceFrom_neg32_length (s : String) :
    (jsSliceFrom s (-32)).length ≤ 32 := by
  rw [jsSliceFrom_neg32_eq]
  show (s.drop (s.length - 32)).data.length ≤ 32
  rw [String.data_drop, List.length_drop]
  have h : s.length = s.data.length := rfl
  omega

/-! ### A concrete environment for witnesses

JSON structural values (string, number, boolean, null, array, object) and a
small concrete file system / parser instantiating the abstract
collaborators, used only to evaluate the theorems at concrete inputs. -/

/-- JSON structural values, the shape of a decoded result. -/
inductive JsonValue where
  | null
  | bool (b : Bool)
  | num (n : Int)
  | str (s : String)
  | arr (elems : List JsonValue)
  | obj (fields : List (String × JsonValue))

/-- A concrete file system: one file with valid JSON content, one file with
malformed content, everything else missing. -/
def sampleFs : String → Except JsError String := fun p =>
  if p = "data/config.json" then .ok "[1,2,3]"
  else if p = "data/bad.json" then .ok "[1,2,"
  else .error (.readErr "ENOENT")

/-- A concrete instantiation of the abstract JSON-parse collaborator,
defined on the two file contents of `sampleFs`. -/
def sampleParse : String → Except JsError JsonValue := fun s =>
  if s = "[1,2,3]" then .ok (.arr [.num 1, .num 2, .num 3])
  else .error (.parseErr "Unexpected end of JSON input")

/-- The concrete environment assembled from `sampleFs` and `sampleParse`,
with the logging hook set. -/
def sampleEnv : Env JsonValue :=
  { readFileSync := sampleFs
    readFile := sampleFs
    parseJson := sampleParse
    hasLogger := true }

/-! ### Claim theorems -/

/-- C1: for every path `p` whose file read succeeds with text `j` that is
valid JSON (the parse primitive accepts it, producing `v`),
`readJson(p, true)` returns exactly `v = parse(j)`, and `readJson(p)` as
well as `readJson(p, false)` return a deferred result resolving to that
same value. -/
theorem readJson_parses_file {T : Type} (env : Env T) (p j : String) (v : T)
    (hsync : env.readFileSync p = .ok j)
    (hasync : env.readFile p = .ok j)
    (hparse : env.parseJson j = .ok v) :
    (readJson env p true).outcome = .immediate (.ok v) ∧
    (readJsonDefault env p).outcome = .deferred (.ok v) ∧
    (readJson env p false).outcome = .deferred (.ok v) := by
  refine ⟨?_, ?_, ?_⟩ <;> simp [readJson, readJsonDefault, hsync, hasync, hparse]

/-- Witness for C1 at the concrete file `data/config.json` of `sampleEnv`,
whose content `[1,2,3]` parses to the array `[1, 2, 3]`. -/
theorem readJson_parses_file_witness :
    sampleEnv.readFileSync "data/config.json" = .ok "[1,2,3]" ∧
    sampleEnv.parseJson "[1,2,3]" = .ok (.arr [.num 1, .num 2, .num 3]) ∧
    ((readJson sampleEnv "data/config.json" true).outcome
        = .immediate (.ok (.arr [.num 1, .num 2, .num 3])) ∧
      (readJsonDefault sampleEnv "data/config.json").outcome
        = .deferred (.ok (.arr [.num 1, .num 2, .num 3])) ∧
      (readJson sampleEnv "data/config.json" false).outcome
        = .deferred (.ok (.arr [.num 1, .num 2, .num 3]))) :=
  ⟨rfl, rfl, readJson_parses_file sampleEnv "data/config.json" "[1,2,3]"
    (.arr [.num 1, .num 2, .num 3]) rfl rfl rfl⟩

/-- C2: mode equivalence — when the two read primitives see the same file
content at `p`, the blocking and the non-blocking call settle on the same
`Except` value (structurally identical value, or the very same error); the
only difference is the delivery: the blocking call is immediate, the other
two deferred. -/
theorem readJson_mode_equivalence {T : Type} (env : Env T) (p : String)
    (hagree : env.readFile p = env.readFileSync p) :
    (readJson env p true).outcome.settled = (readJson env p false).outcome.settled ∧
    (readJsonDefault env p).outcome.settled = (readJson env p true).outcome.settled ∧
    (readJson env p true).outcome.isImmediate = true ∧
    (readJson env p false).outcome.isImmediate = false ∧
    (readJsonDefault env p).outcome.isImmediate = false := by
  cases h : env.readFileSync p <;>
    refine ⟨?_, ?_, ?_, ?_, ?_⟩ <;>
    simp [readJson, readJsonDefault, h, hagree, Outcome.settled, Outcome.isImmediate]

/-- Witness for C2 at the concrete path `data/config.json` of `sampleEnv`. -/
theorem readJson_mode_equivalence_witness :
    sampleEnv.readFile "data/config.json" = sampleEnv.readFileSync "data/config.json" ∧
    ((readJson sampleEnv "data/config.json" true).outcome.settled
        = (readJson sampleEnv "data/config.json" false).outcome.settled ∧
      (readJsonDefault sampleEnv "data/config.json").outcome.settled
        = (readJson sampleEnv "data/config.json" true).outcome.settled ∧
      (readJson sampleEnv "data/config.json" true).outcome.isImmediate = true ∧
      (readJson sampleEnv "data/config.json" false).outcome.isImmediate = false ∧
      (readJsonDefault sampleEnv "data/config.json").outcome.isImmediate = false) :=
  ⟨rfl, readJson_mode_equivalence sampleEnv "data/config.json" rfl⟩

/-- C3: when the read at `p` fails with a read-kind error `e`, both modes
fail with exactly that error — same kind, same payload, no wrapping, no
translation, no fallback value — the error is not of parse kind, and the
parse primitive is never invoked (no parse event in either trace). -/
theorem readJson_read_failure {T : Type} (env : Env T) (p : String) (e : JsError)
    (hsync : env.readFileSync p = .error e)
    (hasync : env.readFile p = .error e)
    (hkind : e.isReadKind = true) :
    (readJson env p true).outcome = .immediate (.error e) ∧
    (readJsonDefault env p).outcome = .deferred (.error e) ∧
    e.isParseKind = false ∧
    (∀ ev ∈ (readJson env p true).trace, ev.isParseCall = false) ∧
    (∀ ev ∈ (readJsonDefault env p).trace, ev.isParseCall = false) := by
  refine ⟨?_, ?_, ?_, ?_, ?_⟩
  · simp [readJson, hsync]
  · simp [readJson, readJsonDefault, hasync]
  · cases e with
    | readErr m => rfl
    | parseErr m => simp [JsError.isReadKind] at hkind
  · intro ev hev
    cases hl : env.hasLogger <;> simp [readJson, hsync, hl] at hev
    · subst hev; rfl
    · rcases hev with h | h <;> subst h <;> rfl
  · intro ev hev
    cases hl : env.hasLogger <;> simp [readJson, readJsonDefault, hasync, hl] at hev
    · subst hev; rfl
    · rcases hev with h | h <;> subst h <;> rfl

/-- Witness for C3 at the missing file `data/missing.json` of `sampleEnv`,
where the read fails with the read-kind error `ENOENT`. -/
theorem readJson_read_failure_witness :
    sampleEnv.readFileSync "data/missing.json" = .error (.readErr "ENOENT") ∧
    ((readJson sampleEnv "data/missing.json" true).outcome
        = .immediate (.error (.readErr "ENOENT")) ∧
      (readJsonDefault sampleEnv "data/missing.json").outcome
        = .deferred (.error (.readErr "ENOENT")) ∧
      JsError.isParseKind (.readErr "ENOENT") = false ∧
      (∀ ev ∈ (readJson sampleEnv "data/missing.json" true).trace,
        ev.isParseCall = false) ∧
      (∀ ev ∈ (readJsonDefault sampleEnv "data/missing.json").trace,
        ev.isParseCall = false)) :=
  ⟨rfl, readJson_read_failure sampleEnv "data/missing.json" (.readErr "ENOENT")
    rfl rfl rfl⟩

/-- C4: when the read at `p` succeeds with content `j` that the parse
primitive rejects with a parse-kind error, both modes fail with exactly
that parse error — never silently converted into a successful default
value — delivered as a raised failure at the call site in blocking mode
and as a rejected deferred result in non-blocking mode. -/
theorem readJson_parse_failure {T : Type} (env : Env T) (p j m : String)
    (hsync : env.readFileSync p = .ok j)
    (hasync : env.readFile p = .ok j)
    (hparse : env.parseJson j = .error (.parseErr m)) :
    (readJson env p true).outcome = .immediate (.error (.parseErr m)) ∧
    (readJsonDefault env p).outcome = .deferred (.error (.parseErr m)) ∧
    (∀ v : T, (readJson env p true).outcome.settled ≠ .ok v) ∧
    (∀ v : T, (readJsonDefault env p).outcome.settled ≠ .ok v) := by
  refine ⟨?_, ?_, ?_, ?_⟩ <;>
    simp [readJson, readJsonDefault, hsync, hasync, hparse, Outcome.settled]

/-- Witness for C4 at the malformed file `data/bad.json` of `sampleEnv`,
whose content `[1,2,` is rejected by the parse primitive. -/
theorem readJson_parse_failure_witness :
    sampleEnv.readFileSync "data/bad.json" = .ok "[1,2," ∧
    sampleEnv.parseJson "[1,2," = .error (.parseErr "Unexpected end of JSON input") ∧
    ((readJson sampleEnv "data/bad.json" true).outcome
        = .immediate (.error (.parseErr "Unexpected end of JSON input")) ∧
      (readJsonDefault sampleEnv "data/bad.json").outcome
        = .deferred (.error (.parseErr "Unexpected end of JSON input")) ∧
      (∀ v : JsonValue,
        (readJson sampleEnv "data/bad.json" true).outcome.settled ≠ .ok v) ∧
      (∀ v : JsonValue,
        (readJsonDefault sampleEnv "data/bad.json").outcome.settled ≠ .ok v)) :=
  ⟨rfl, rfl, readJson_parse_failure sampleEnv "data/bad.json" "[1,2,"
    "Unexpected end of JSON input" rfl rfl rfl⟩

/-- C5: every call invokes the logging hook at most once (exactly once when
the hook is set, never when it is unset); every hook invocation carries a
path that is a suffix of the original path and has at most 32 characters;
no hook invocation occurs after a read-primitive call, so the log step
happens before the read; and the hook never throws or alters the result:
the delivered outcome is the same whatever the hook's presence. -/
theorem readJson_logging {T : Type} (env : Env T) (p : String) (sync : Bool) :
    ((readJson env p sync).trace.filter Event.isLog).length ≤ 1 ∧
    (∀ m q b, Event.logCall m q b ∈ (readJson env p sync).trace →
      q.data <:+ p.data ∧ q.length ≤ 32) ∧
    List.Pairwise (fun a b => ¬(a.isReadCall = true ∧ b.isLog = true))
      (readJson env p sync).trace ∧
    (∀ hl : Bool,
      (readJson { env with hasLogger := hl } p sync).outcome
        = (readJson env p sync).outcome) := by
  refine ⟨?_, ?_, ?_, ?_⟩
  · cases hl : env.hasLogger <;> cases sync <;>
      cases hr : env.readFile p <;> cases hs : env.readFileSync p <;>
      simp [readJson, hl, hr, hs, Event.isLog]
  · intro m q b hmem
    cases hl : env.hasLogger <;> cases sync <;>
      cases hr : env.readFile p <;> cases hs : env.readFileSync p <;>
      simp [readJson, hl, hr, hs] at hmem
    all_goals
      obtain ⟨-, hq, -⟩ := hmem
    all_goals
      subst hq
    all_goals
      exact ⟨jsSliceFrom_neg32_suffix p, jsSliceFrom_neg32_length p⟩
  · cases hl : env.hasLogger <;> cases sync <;>
      cases hr : env.readFile p <;> cases hs : env.readFileSync p <;>
      simp [readJson, hl, hr, hs, List.pairwise_cons, Event.isReadCall, Event.isLog]
  · intro hl
    cases sync <;> cases hr : env.readFile p <;> cases hs : env.readFileSync p <;>
      simp [readJson, hr, hs]

/-- C6: with the mode argument omitted, `readJson(p)` runs the non-blocking
branch: its result is a deferred outcome, never an immediate one, and it is
the very call `readJson(p, false)`; an immediate (blocking) outcome occurs
only when the caller passes `true`. -/
theorem readJson_default_nonblocking {T : Type} (env : Env T) (p : String) :
    readJsonDefault env p = readJson env p false ∧
    (∃ r : Except JsError T, (readJsonDefault env p).outcome = .deferred r) ∧
    (∀ sync : Bool, (readJson env p sync).outcome.isImmediate = true → sync = true) := by
  refine ⟨rfl, ?_, ?_⟩
  · cases hr : env.readFile p with
    | error e => exact ⟨.error e, by simp [readJsonDefault, readJson, hr]⟩
    | ok c => exact ⟨env.parseJson c, by simp [readJsonDefault, readJson, hr]⟩
  · intro sync h
    cases sync
    · cases hr : env.readFile p <;>
        simp [readJson, hr, Outcome.isImmediate] at h
    · rfl

/-- C7: when the logging hook is unset, every call still completes with the
same delivered outcome as the identical call with the hook present: its
absence neither fails the call nor changes the returned or resolved
value. -/
theorem readJson_tolerates_absent_logger {T : Type} (env : Env T) (p : String)
    (sync : Bool) :
    (readJson { env with hasLogger := false } p sync).outcome
      = (readJson { env with hasLogger := true } p sync).outcome := by
  cases sync <;> cases hr : env.readFile p <;> cases hs : env.readFileSync p <;>
    simp [readJson, hr, hs]

/-- C8: the 32-character truncation affects only the logging-hook argument:
every invocation of a read primitive in the trace carries exactly the
caller's original, untruncated path, and the mode's read primitive is
indeed invoked with that path. -/
theorem readJson_reads_original_path {T : Type} (env : Env T) (p : String)
    (sync : Bool) :
    (∀ q, Event.readSyncCall q ∈ (readJson env p sync).trace → q = p) ∧
    (∀ q, Event.readAsyncCall q ∈ (readJson env p sync).trace → q = p) ∧
    (sync = true → Event.readSyncCall p ∈ (readJson env p sync).trace) ∧
    (sync = false → Event.readAsyncCall p ∈ (readJson env p sync).trace) := by
  refine ⟨?_, ?_, ?_, ?_⟩
  · intro q hmem
    cases hl : env.hasLogger <;> cases sync <;>
      cases hr : env.readFile p <;> cases hs : env.readFileSync p <;>
      simp [readJson, hl, hr, hs] at hmem <;> exact hmem
  · intro q hmem
    cases hl : env.hasLogger <;> cases sync <;>
      cases hr : env.readFile p <;> cases hs : env.readFileSync p <;>
      simp [readJson, hl, hr, hs] at hmem <;> exact hmem
  · intro h
    subst h
    cases hl : env.hasLogger <;> cases hs : env.readFileSync p <;>
      simp [readJson, hl, hs]
  · intro h
    subst h
    cases hl : env.hasLogger <;> cases hr : env.readFile p <;>
      simp [readJson, hl, hr]

/-- C9: determinism — two calls with the same path and mode, against a
world whose file content at that path is unchanged between the calls (and
with the same parse primitive), deliver structurally equal outcomes. -/
theorem readJson_deterministic {T : Type} (env₁ env₂ : Env T) (p : String)
    (sync : Bool)
    (h1 : env₁.readFileSync p = env₂.readFileSync p)
    (h2 : env₁.readFile p = env₂.readFile p)
    (h3 : ∀ s, env₁.parseJson s = env₂.parseJson s) :
    (readJson env₁ p sync).outcome = (readJson env₂ p sync).outcome := by
  cases sync
  · cases hr : env₂.readFile p <;> simp [readJson, h1, h2, h3, hr]
  · cases hs : env₂.readFileSync p <;> simp [readJson, h1, h2, h3, hs]

/-- A second concrete environment for the determinism witness: the world
has changed at another path (`data/other.json` now exists), but the file
at the queried path is unchanged. -/
def sampleEnvLater : Env JsonValue :=
  { readFileSync := fun p => if p = "data/other.json" then .ok "0" else sampleFs p
    readFile := fun p => if p = "data/other.json" then .ok "0" else sampleFs p
    parseJson := sampleParse
    hasLogger := true }

/-- Witness for C9: two calls on `data/config.json`, in two world states
that agree on that file, deliver equal outcomes. -/
theorem readJson_deterministic_witness :
    (readJson sampleEnv "data/config.json" true).outcome
      = (readJson sampleEnvLater "data/config.json" true).outcome :=
  readJson_deterministic sampleEnv sampleEnvLater "data/config.json" true
    rfl rfl (fun _ => rfl)

/-- C10: dispatch is by strict equality with the literal `true`: the
synchronous branch (the blocking read followed by the parse, delivered
immediately) is taken exactly when the mode argument is `true`; for the
omitted argument and for `false` the promise-returning branch (the
non-blocking read) is taken. -/
theorem readJson_dispatch_strict {T : Type} (env : Env T) (p : String)
    (sync : Bool) :
    ((readJson env p sync).outcome.isImmediate = true ↔ sync = true) ∧
    (Event.readSyncCall p ∈ (readJson env p sync).trace ↔ sync = true) ∧
    (Event.readAsyncCall p ∈ (readJson env p sync).trace ↔ ¬sync = true) ∧
    readJsonDefault env p = readJson env p false := by
  refine ⟨?_, ?_, ?_, rfl⟩ <;>
    cases hl : env.hasLogger <;> cases sync <;>
      cases hr : env.readFile p <;> cases hs : env.readFileSync p <;>
      simp [readJson, hl, hr, hs, Outcome.isImmediate]

end NanoLib
